import Mathlib

/-!
A shallow embedding of the nginx-config generator (`config.py`) together
with theorems checking the specification's claims against it.

The Python classes `BaseConfig`, `SecureConfig`, `SecureConfigExternal`,
`StaticSiteConfig` and `DatabaseProxyConfig` are modelled by a record of
instance fields plus a class tag used for method dispatch; the
`NginxConfigGenerator` service is modelled by an explicit state record,
and its mutating methods by state-passing functions that also return the
raised error (if any), mirroring Python exception semantics where state
mutated before the raise survives.
-/

namespace Gen

/-- Rendering of an optional value under Python f-string interpolation:
`None` prints as the text "None". -/
def pyStr : Option String → String
  | none => "None"
  | some s => s

/-- Python's `sep.join(parts)`. -/
def joinParts (sep : String) : List String → String
  | [] => ""
  | [x] => x
  | x :: y :: rest => x ++ sep ++ joinParts sep (y :: rest)

/-- The concrete subclasses of `BaseConfig` defined in `config.py`.
`BaseConfig` itself is abstract (ABC with abstract methods) and is never
instantiated. -/
inductive ConfigClass
  | secureConfig
  | secureConfigExternal
  | staticSiteConfig
  | databaseProxyConfig
deriving DecidableEq

/-- Every class in the repository that can be passed to `register_config`:
the four `BaseConfig` subclasses, and the unrelated classes from `main.py`
(`Character`, `Player`, `Game`) which do not inherit from `BaseConfig`. -/
inductive PyClass
  | config (c : ConfigClass)
  | character
  | player
  | game
deriving DecidableEq

/-- Python's `issubclass(cls, BaseConfig)` for the classes modelled here. -/
def PyClass.isSubclassOfBaseConfig : PyClass → Bool
  | .config _ => true
  | _ => false

/-- The instance fields set by `BaseConfig.__init__` and its overrides,
plus the class tag used for virtual dispatch. -/
structure ConfigInstance where
  cls : ConfigClass
  default_port : Nat
  default_ssl_port : Nat
  enable_gzip : Bool
  enable_security_headers : Bool
  server_tokens : Bool
deriving DecidableEq

/-- Constructor `BaseConfig.__init__`: port 80, ssl port 443, all flags off. -/
def baseInit (c : ConfigClass) : ConfigInstance :=
  ⟨c, 80, 443, false, false, false⟩

/-- Instantiation `config_class()`, following each `__init__` chain. -/
def ConfigClass.new : ConfigClass → ConfigInstance
  | .secureConfig => { baseInit .secureConfig with default_port := 443 }
  | .secureConfigExternal =>
      { baseInit .secureConfigExternal with default_port := 443, server_tokens := true }
  | .staticSiteConfig => baseInit .staticSiteConfig
  | .databaseProxyConfig =>
      { baseInit .databaseProxyConfig with default_port := 443, enable_gzip := false }

/-- The `config_type` property of each concrete class. -/
def ConfigInstance.config_type (c : ConfigInstance) : String :=
  match c.cls with
  | .secureConfig => "404"
  | .secureConfigExternal => "404"
  | .staticSiteConfig => "static_site"
  | .databaseProxyConfig => "database_proxy"

/-- Method `get_error_config`: the base implementation returns `None`;
`SecureConfig` (and its subclass) overrides it with the literal string
"error handling". -/
def ConfigInstance.get_error_config (c : ConfigInstance) : Option String :=
  match c.cls with
  | .secureConfig => some "error handling"
  | .secureConfigExternal => some "error handling"
  | .staticSiteConfig => none
  | .databaseProxyConfig => none

/-- Method `get_server_name`, overridden by every concrete class. -/
def ConfigInstance.get_server_name (c : ConfigInstance) (config_id : String) : String :=
  match c.cls with
  | .secureConfig => "api-" ++ config_id ++ ".internal.com"
  | .secureConfigExternal => "api-" ++ config_id ++ ".internal.com"
  | .staticSiteConfig => "site-" ++ config_id ++ ".internal.com"
  | .databaseProxyConfig => "db-" ++ config_id ++ ".internal.com"

/-- Method `get_server_tokens`. -/
def ConfigInstance.get_server_tokens (c : ConfigInstance) : String :=
  if c.server_tokens then "server_tokens on;" else "server_tokens off;"

/-- Method `get_listen_directive`. -/
def ConfigInstance.get_listen_directive (c : ConfigInstance) : String :=
  "listen " ++ toString c.default_port ++ ";"

/-- Method `get_ssl_config`: certificate lines plus interpolated custom data when
`default_port == 443`, empty otherwise. -/
def ConfigInstance.get_ssl_config (c : ConfigInstance) (config_id : String)
    (custom_data : Option String) : String :=
  if c.default_port = 443 then
    "    ssl_certificate /etc/ssl/certs/" ++ config_id
      ++ ".crt;\n    ssl_certificate_key /etc/ssl/private/" ++ config_id
      ++ ".key;\n    \n    " ++ pyStr custom_data
  else ""

/-- The gzip directive block appended when `enable_gzip` holds. -/
def gzipBlock : String :=
  "    # Gzip compression\n    gzip on;\n    gzip_types text/css text/javascript application/javascript application/json;"

/-- The security-headers block appended when `enable_security_headers` holds. -/
def securityBlock : String :=
  "    # Security headers\n    add_header X-Frame-Options DENY;\n    add_header X-Content-Type-Options nosniff;\n    add_header X-XSS-Protection \"1; mode=block\";"

/-- Method `get_common_directives`. -/
def ConfigInstance.get_common_directives (c : ConfigInstance) : String :=
  joinParts "\n"
    ((if c.enable_gzip then [gzipBlock] else [])
      ++ (if c.enable_security_headers then [securityBlock] else []))

/-- Method `get_location_blocks`, one literal template per concrete class. -/
def ConfigInstance.get_location_blocks (c : ConfigInstance) (config_id : String) : String :=
  match c.cls with
  | .secureConfig | .secureConfigExternal =>
      "    location /api/ \x7b\n        proxy_pass http://api_backend_" ++ config_id
        ++ ";\n        proxy_set_header Host $host;\n        proxy_set_header X-Real-IP $remote_addr;\n        proxy_set_header X-Forwarded-For $proxy_add_x_forwarded_for;\n        proxy_set_header X-Forwarded-Proto $scheme;\n        \n        # API specific settings\n        proxy_read_timeout 300s;\n        proxy_connect_timeout 75s;\n    \x7d\n    \n    location /health \x7b\n        access_log off;\n        return 200 \"healthy\\n\";\n        add_header Content-Type text/plain;\n    \x7d"
  | .staticSiteConfig =>
      "    root /var/www/" ++ config_id
        ++ ";\n    index index.html index.htm;\n    \n    location / \x7b\n        try_files $uri $uri/ =404;\n    \x7d\n    \n    location ~* \\.(css|js|png|jpg|jpeg|gif|ico|svg)$ \x7b\n        expires 1y;\n        add_header Cache-Control \"public, immutable\";\n    \x7d\n    \n    location = /favicon.ico \x7b\n        log_not_found off;\n        access_log off;\n    \x7d"
  | .databaseProxyConfig =>
      "    location / \x7b\n        proxy_pass http://db_backend_" ++ config_id
        ++ ";\n        proxy_set_header Host $host;\n        \n        # Database specific settings\n        proxy_read_timeout 600s;\n        proxy_connect_timeout 10s;\n        proxy_send_timeout 600s;\n    \x7d"

/-- Method `get_server_config`: the f-string template of the server block. -/
def ConfigInstance.get_server_config (c : ConfigInstance) (config_id : String)
    (custom_data : Option String) : String :=
  "\n" ++ c.get_server_tokens ++ "\n        \nserver \x7b\n    "
    ++ c.get_listen_directive ++ "\n    server_name "
    ++ c.get_server_name config_id ++ ";\n    \n"
    ++ c.get_ssl_config config_id custom_data ++ "\n"
    ++ c.get_common_directives ++ "\n"
    ++ c.get_location_blocks config_id ++ "\n\x7d"

/-- Method `BaseConfig.generate`: the template method.  The error fragment is
included only when truthy (Python `if error_handling:` — neither `None`
nor the empty string). -/
def ConfigInstance.generate (c : ConfigInstance) (config_id : String)
    (custom_data : Option String) : String :=
  let config_parts : List String :=
    match c.get_error_config with
    | some e => if e = "" then [] else [e]
    | none => []
  joinParts "\n" (config_parts ++ [c.get_server_config config_id custom_data])

/-- One entry of `generated_configs`: the dict built by
`NginxConfigGenerator.generate`. -/
structure GeneratedConfig where
  id : String
  type : String
  content : String
  jarm : String
  body_hash : String
  extra_data : Option String
deriving DecidableEq

/-- The mutable state of a `NginxConfigGenerator` object. -/
structure GenState where
  configs : List (String × ConfigInstance)
  generated_configs : List GeneratedConfig
deriving DecidableEq

/-- Constructor `NginxConfigGenerator.__init__`. -/
def GenState.empty : GenState := ⟨[], []⟩

/-- Python dict assignment `d[k] = v`: replaces in place when the key is
present, appends otherwise. -/
def dictInsert (k : String) (v : ConfigInstance) :
    List (String × ConfigInstance) → List (String × ConfigInstance)
  | [] => [(k, v)]
  | (k0, v0) :: rest =>
      if k0 = k then (k, v) :: rest else (k0, v0) :: dictInsert k v rest

/-- Python dict lookup `d[k]` / membership test. -/
def dictLookup (k : String) : List (String × ConfigInstance) → Option ConfigInstance
  | [] => none
  | (k0, v0) :: rest => if k0 = k then some v0 else dictLookup k rest

/-- Method `NginxConfigGenerator.register_config`: raises `TypeError` when the
class does not inherit from `BaseConfig`, otherwise instantiates it and
binds it under the identifier (overwriting any prior binding).  The
second component is the raised error message, `none` on success. -/
def NginxConfigGenerator.register_config (s : GenState) (config_id : String)
    (config_class : PyClass) : GenState × Option String :=
  match config_class with
  | .config c => ({ s with configs := dictInsert config_id c.new s.configs }, none)
  | _ => (s, some "Config class must inherit from BaseConfig")

/-- Method `NginxConfigGenerator.bulk_register`: registers entries in mapping
order; a raise propagates, keeping the registrations done so far. -/
def NginxConfigGenerator.bulk_register (s : GenState) :
    List (String × PyClass) → GenState × Option String
  | [] => (s, none)
  | (id, cls) :: rest =>
      match NginxConfigGenerator.register_config s id cls with
      | (s1, none) => NginxConfigGenerator.bulk_register s1 rest
      | (s1, some e) => (s1, some e)

/-- Method `NginxConfigGenerator.generate`: raises `ValueError` for an
unregistered identifier; otherwise builds the content, appends the entry
dict to `generated_configs`, and falls off the end (returning Python
`None`, modelled as `Except.ok none`). -/
def NginxConfigGenerator.generate (s : GenState) (config_id jarm body_hash : String)
    (custom_data : Option String) : GenState × Except String (Option String) :=
  match dictLookup config_id s.configs with
  | none => (s, .error ("No config registered for ID: " ++ config_id))
  | some inst =>
      let content := inst.generate config_id custom_data
      let entry : GeneratedConfig :=
        ⟨config_id, inst.config_type, content, jarm, body_hash, custom_data⟩
      ({ s with generated_configs := s.generated_configs ++ [entry] }, .ok none)

/-- Method `NginxConfigGenerator.save_configs`: pure view of the file writes it
performs — one (path, content) pair per generated config.  It reads
`generated_configs` and mutates nothing. -/
def NginxConfigGenerator.save_configs (s : GenState)
    (output_dir : String := "nginx_configs") : List (String × String) :=
  s.generated_configs.map fun c =>
    (output_dir ++ "/" ++ "BH:" ++ c.id ++ "_JARM:" ++ c.jarm ++ "_HH:"
      ++ c.body_hash ++ "_" ++ c.type ++ ".conf", c.content)

/-- The public operations of `NginxConfigGenerator`, for reasoning about
arbitrary operation sequences. -/
inductive Op
  | register (id : String) (cls : PyClass)
  | bulkRegister (m : List (String × PyClass))
  | generate (id jarm bh : String) (data : Option String)
  | save (dir : String)

/-- State transition of one operation (errors keep the state reached). -/
def applyOp (s : GenState) : Op → GenState
  | .register id cls => (NginxConfigGenerator.register_config s id cls).1
  | .bulkRegister m => (NginxConfigGenerator.bulk_register s m).1
  | .generate id j b d => (NginxConfigGenerator.generate s id j b d).1
  | .save _ => s

/-- Running a sequence of operations. -/
def runOps (s : GenState) : List Op → GenState
  | [] => s
  | op :: rest => runOps (applyOp s op) rest

/-- Substring containment: `pat` occurs contiguously in `d`. -/
def strContains (pat d : String) : Prop :=
  ∃ p q : String, d = p ++ (pat ++ q)

/-- The ssl_certificate line of `get_ssl_config`, path derived from the
config identifier. -/
def certLine (config_id : String) : String :=
  "ssl_certificate /etc/ssl/certs/" ++ (config_id ++ ".crt;")

/-- The ssl_certificate_key line of `get_ssl_config`, path derived from the
config identifier. -/
def keyLine (config_id : String) : String :=
  "ssl_certificate_key /etc/ssl/private/" ++ (config_id ++ ".key;")

/-- Document text of a generated config up to (excluding) the
ssl_certificate line, for a port-443 config. -/
def docPre (c : ConfigInstance) (config_id : String) : String :=
  (match c.get_error_config with
    | some e => if e = "" then "" else e ++ "\n"
    | none => "")
    ++ "\n" ++ c.get_server_tokens ++ "\n        \nserver \x7b\n    "
    ++ c.get_listen_directive ++ "\n    server_name "
    ++ c.get_server_name config_id ++ ";\n    \n    "

/-- Document text between the certificate line and the key line. -/
def docMidKey : String := "\n    "

/-- Document text between the key line and the interpolated custom data. -/
def docMidData : String := "\n    \n    "

/-- Document text of a generated config after the interpolated custom
data, for a port-443 config. -/
def docPost (c : ConfigInstance) (config_id : String) : String :=
  "\n" ++ c.get_common_directives ++ "\n" ++ c.get_location_blocks config_id ++ "\n\x7d"

/-- Substring containment coincides with infix containment of the
underlying character lists, which is decidable. -/
theorem strContains_iff (pat d : String) : strContains pat d ↔ pat.data <:+: d.data := by
  constructor
  · rintro ⟨p, q, rfl⟩
    exact ⟨p.data, q.data, by simp [String.data_append]⟩
  · rintro ⟨u, v, huv⟩
    refine ⟨⟨u⟩, ⟨v⟩, String.ext ?_⟩
    simp only [String.data_append]
    simpa [List.append_assoc] using huv.symm

/-- Looking a key up right after inserting it yields the inserted value. -/
theorem dictLookup_insert (k : String) (v : ConfigInstance) :
    ∀ m : List (String × ConfigInstance), dictLookup k (dictInsert k v m) = some v := by
  intro m
  induction m with
  | nil => simp [dictInsert, dictLookup]
  | cons hd tl ih =>
    obtain ⟨k0, v0⟩ := hd
    by_cases h : k0 = k <;> simp [dictInsert, dictLookup, h, ih]

/-- Registration (single or bulk) never touches `generated_configs`. -/
theorem bulk_register_generated (m : List (String × PyClass)) :
    ∀ s : GenState,
      (NginxConfigGenerator.bulk_register s m).1.generated_configs = s.generated_configs := by
  induction m with
  | nil => intro s; rfl
  | cons hd tl ih =>
    intro s
    obtain ⟨id, cls⟩ := hd
    cases cls with
    | config c =>
      simpa [NginxConfigGenerator.bulk_register, NginxConfigGenerator.register_config]
        using ih _
    | character => rfl
    | player => rfl
    | game => rfl

/-- A single operation only appends to (or keeps) the generated list:
existing entries keep their position and value. -/
theorem applyOp_stable (s : GenState) (op : Op) (i : Nat)
    (h : i < s.generated_configs.length) :
    (applyOp s op).generated_configs[i]? = s.generated_configs[i]?
      ∧ i < (applyOp s op).generated_configs.length := by
  cases op with
  | register id cls =>
    cases cls <;> simp [applyOp, NginxConfigGenerator.register_config, h]
  | bulkRegister m =>
    simp [applyOp, bulk_register_generated, h]
  | generate id j b d =>
    cases hd : dictLookup id s.configs with
    | none => simp [applyOp, NginxConfigGenerator.generate, hd, h]
    | some inst =>
      refine ⟨?_, ?_⟩
      · simp only [applyOp, NginxConfigGenerator.generate, hd]
        exact List.getElem?_append_left h
      · simp only [applyOp, NginxConfigGenerator.generate, hd, List.length_append]
        omega
  | save dir => exact ⟨rfl, h⟩

/-- C2: generation with an identifier that is not registered fails with the
unknown-id `ValueError` and leaves the whole state (registry and store of
generated documents) unchanged; moreover every error the generate call can
raise is that unknown-id error and always leaves the state unchanged. -/
theorem claim_C2_unknown_id_no_mutation (s : GenState) (id jarm body_hash : String)
    (d : Option String) :
    (dictLookup id s.configs = none →
      NginxConfigGenerator.generate s id jarm body_hash d
        = (s, .error ("No config registered for ID: " ++ id)))
    ∧ ∀ e, (NginxConfigGenerator.generate s id jarm body_hash d).2 = .error e →
        (NginxConfigGenerator.generate s id jarm body_hash d).1 = s
          ∧ e = "No config registered for ID: " ++ id
          ∧ dictLookup id s.configs = none := by
  cases hd : dictLookup id s.configs with
  | none =>
    have hg : NginxConfigGenerator.generate s id jarm body_hash d
        = (s, .error ("No config registered for ID: " ++ id)) := by
      simp [NginxConfigGenerator.generate, hd]
    refine ⟨fun _ => hg, fun e he => ?_⟩
    rw [hg] at he
    simp only [Except.error.injEq] at he
    exact ⟨by rw [hg], he.symm, rfl⟩
  | some inst =>
    refine ⟨fun h0 => (nomatch h0), fun e he => ?_⟩
    simp [NginxConfigGenerator.generate, hd] at he

/-- Witness for C2 at the spec's own test input: the identifier
"nonexistent" on a fresh generator. -/
theorem claim_C2_unknown_id_no_mutation_witness :
    NginxConfigGenerator.generate GenState.empty "nonexistent" "j" "b" none
      = (GenState.empty, .error ("No config registered for ID: " ++ "nonexistent")) :=
  (claim_C2_unknown_id_no_mutation GenState.empty "nonexistent" "j" "b" none).1 rfl

/-- C3 counterexample: the generate operation does not memoize and does not
return the document.  Registering one config and generating twice with
identical parameters stores two (duplicate) entries rather than finding one
authoritative entry, and the call's return value is Python `None`, not the
generated document. -/
theorem claim_C3_counterexample :
    ((NginxConfigGenerator.generate
        (NginxConfigGenerator.generate
          (NginxConfigGenerator.register_config GenState.empty "a"
            (.config .secureConfig)).1 "a" "j" "b" none).1
        "a" "j" "b" none).1.generated_configs.length = 2)
    ∧ (NginxConfigGenerator.generate
        (NginxConfigGenerator.generate
          (NginxConfigGenerator.register_config GenState.empty "a"
            (.config .secureConfig)).1 "a" "j" "b" none).1
        "a" "j" "b" none).2 = .ok none := by
  constructor <;> rfl

/-- C3 (amended): on a call with a registered identifier the operation
computes the document and appends one entry holding the full parameter set
(id, type, content, jarm, body hash, extra data) to the list of generated
configs — repeated calls append duplicate entries — and returns `None`
rather than the document. -/
theorem claim_C3_append_not_cache (s : GenState) (id jarm body_hash : String)
    (d : Option String) (inst : ConfigInstance)
    (h : dictLookup id s.configs = some inst) :
    NginxConfigGenerator.generate s id jarm body_hash d
      = ({ s with generated_configs :=
            s.generated_configs
              ++ [⟨id, inst.config_type, inst.generate id d, jarm, body_hash, d⟩] },
          .ok none) := by
  simp [NginxConfigGenerator.generate, h]

/-- Witness for the amended C3 on a concretely registered identifier. -/
theorem claim_C3_append_not_cache_witness :
    NginxConfigGenerator.generate
        (NginxConfigGenerator.register_config GenState.empty "a"
          (.config .secureConfig)).1 "a" "j" "b" none
      = ({ (NginxConfigGenerator.register_config GenState.empty "a"
              (.config .secureConfig)).1 with
            generated_configs :=
              (NginxConfigGenerator.register_config GenState.empty "a"
                (.config .secureConfig)).1.generated_configs
                ++ [⟨"a", (ConfigClass.secureConfig.new).config_type,
                    (ConfigClass.secureConfig.new).generate "a" none, "j", "b", none⟩] },
          .ok none) :=
  claim_C3_append_not_cache _ "a" "j" "b" none ConfigClass.secureConfig.new rfl

/-- C4 counterexample: the server-tokens flag has a default.  A
`SecureConfig` instance — whose constructors never receive or set the flag —
carries `server_tokens = False` from `BaseConfig.__init__`, and emitting the
directive succeeds with "server_tokens off;" instead of failing with a
missing-flag error. -/
theorem claim_C4_counterexample :
    (ConfigClass.secureConfig.new).server_tokens = false
      ∧ (ConfigClass.secureConfig.new).get_server_tokens = "server_tokens off;" :=
  ⟨rfl, rfl⟩

/-- C4 (amended): the directive is "server_tokens on;" exactly when the
instance's `server_tokens` flag is true and "server_tokens off;" otherwise;
the flag is not caller-supplied but defaults to false at construction (only
`SecureConfigExternal` sets it true), so the directive is always produced
and no missing-flag failure exists. -/
theorem claim_C4_default_off (cls : ConfigClass) :
    ((cls.new).server_tokens = true ↔ cls = ConfigClass.secureConfigExternal)
    ∧ (cls.new).get_server_tokens
        = (if cls = ConfigClass.secureConfigExternal then "server_tokens on;"
           else "server_tokens off;") := by
  cases cls <;> exact ⟨by decide, by decide⟩

/-- C5 counterexample: for the body whose target status code is 404
(`SecureConfig`, whose `config_type` is "404"), the error fragment is the
literal placeholder "error handling"; it does not even contain the code
400, so it is not the claimed exclusion directive listing
400,401,403,405,500,502,503. -/
theorem claim_C5_counterexample :
    (ConfigClass.secureConfig.new).get_error_config = some "error handling"
      ∧ ¬ strContains "400" "error handling" := by
  refine ⟨rfl, ?_⟩
  rw [strContains_iff]
  decide

/-- C5 (amended): for a config whose target status code is 404 (the classes
with `config_type` "404") the error fragment produced during generation is
the fixed literal string "error handling"; no list of status codes is
produced. -/
theorem claim_C5_error_fragment_literal (cls : ConfigClass)
    (h : (cls.new).config_type = "404") :
    (cls.new).get_error_config = some "error handling" := by
  cases cls
  · rfl
  · rfl
  · exact absurd h (by decide)
  · exact absurd h (by decide)

/-- Witness for the amended C5 at `SecureConfig`. -/
theorem claim_C5_error_fragment_literal_witness :
    (ConfigClass.secureConfig.new).config_type = "404"
      ∧ (ConfigClass.secureConfig.new).get_error_config = some "error handling" :=
  ⟨rfl, claim_C5_error_fragment_literal ConfigClass.secureConfig rfl⟩

/-- C6: registering a second config class under an already-bound identifier
raises no error and overwrites the binding — a subsequent lookup resolves to
a fresh instance of the second class, the first being unreachable. -/
theorem claim_C6_duplicate_overwrites (s : GenState) (id : String) (c1 c2 : ConfigClass) :
    (NginxConfigGenerator.register_config
        (NginxConfigGenerator.register_config s id (.config c1)).1 id (.config c2)).2 = none
    ∧ dictLookup id
        (NginxConfigGenerator.register_config
          (NginxConfigGenerator.register_config s id (.config c1)).1
          id (.config c2)).1.configs
        = some c2.new := by
  refine ⟨rfl, ?_⟩
  simp [NginxConfigGenerator.register_config, dictLookup_insert]

/-- Bulk registration aborts at the first entry whose class is not a
`BaseConfig` subclass, keeping exactly the registrations made before it. -/
theorem bulk_register_aborts (cls : PyClass) (hcls : cls.isSubclassOfBaseConfig = false)
    (id : String) (post : List (String × PyClass)) :
    ∀ (pre : List (String × PyClass)) (s : GenState),
      (∀ p ∈ pre, p.2.isSubclassOfBaseConfig = true) →
      NginxConfigGenerator.bulk_register s (pre ++ (id, cls) :: post)
        = (pre.foldl (fun t p => (NginxConfigGenerator.register_config t p.1 p.2).1) s,
            some "Config class must inherit from BaseConfig") := by
  intro pre
  induction pre with
  | nil =>
    intro s _
    cases cls with
    | config c => simp [PyClass.isSubclassOfBaseConfig] at hcls
    | character => rfl
    | player => rfl
    | game => rfl
  | cons hd tl ih =>
    intro s hpre
    obtain ⟨hid, hcl⟩ := hd
    have hh : hcl.isSubclassOfBaseConfig = true := hpre (hid, hcl) (by simp)
    cases hcl with
    | config c =>
      simp only [List.cons_append, List.foldl_cons]
      exact ih _ fun p hp => hpre p (List.mem_cons_of_mem _ hp)
    | character => simp [PyClass.isSubclassOfBaseConfig] at hh
    | player => simp [PyClass.isSubclassOfBaseConfig] at hh
    | game => simp [PyClass.isSubclassOfBaseConfig] at hh

/-- C9: registering a class that is not a `BaseConfig` subclass raises
`TypeError` and leaves the configs mapping unchanged, and bulk registration
with such a class in the mapping raises the same `TypeError` after having
registered exactly the entries iterated before it. -/
theorem claim_C9_type_error (s : GenState) (id : String) (cls : PyClass)
    (pre post : List (String × PyClass))
    (hpre : ∀ p ∈ pre, p.2.isSubclassOfBaseConfig = true)
    (hcls : cls.isSubclassOfBaseConfig = false) :
    NginxConfigGenerator.register_config s id cls
      = (s, some "Config class must inherit from BaseConfig")
    ∧ NginxConfigGenerator.bulk_register s (pre ++ (id, cls) :: post)
      = (pre.foldl (fun t p => (NginxConfigGenerator.register_config t p.1 p.2).1) s,
          some "Config class must inherit from BaseConfig") := by
  refine ⟨?_, bulk_register_aborts cls hcls id post pre s hpre⟩
  cases cls with
  | config c => simp [PyClass.isSubclassOfBaseConfig] at hcls
  | character => rfl
  | player => rfl
  | game => rfl

/-- Witness for C9: registering `Character` (from `main.py`) fails, and a
bulk mapping that lists a good entry before it registers only that entry. -/
theorem claim_C9_type_error_witness :
    NginxConfigGenerator.register_config GenState.empty "b" PyClass.character
      = (GenState.empty, some "Config class must inherit from BaseConfig")
    ∧ NginxConfigGenerator.bulk_register GenState.empty
        ([("a", PyClass.config ConfigClass.secureConfig)] ++ [("b", PyClass.character)])
      = ([("a", PyClass.config ConfigClass.secureConfig)].foldl
            (fun t p => (NginxConfigGenerator.register_config t p.1 p.2).1) GenState.empty,
          some "Config class must inherit from BaseConfig") :=
  claim_C9_type_error GenState.empty "b" PyClass.character
    [("a", PyClass.config ConfigClass.secureConfig)] [] (by decide) rfl

/-- C1: generation is deterministic and reads no hidden state — the entry a
generate call appends (in particular its stored content) and the call's
result depend only on the config registered under the identifier and on the
call's arguments; two generators agreeing on that binding produce
byte-identical stored documents for structurally equal arguments. -/
theorem claim_C1_deterministic (s1 s2 : GenState) (id jarm body_hash : String)
    (d : Option String)
    (h : dictLookup id s1.configs = dictLookup id s2.configs) :
    ((NginxConfigGenerator.generate s1 id jarm body_hash d).1.generated_configs.drop
        s1.generated_configs.length)
      = ((NginxConfigGenerator.generate s2 id jarm body_hash d).1.generated_configs.drop
        s2.generated_configs.length)
    ∧ (NginxConfigGenerator.generate s1 id jarm body_hash d).2
      = (NginxConfigGenerator.generate s2 id jarm body_hash d).2 := by
  cases hd : dictLookup id s1.configs with
  | none =>
    have h2 : dictLookup id s2.configs = none := by rw [← h, hd]
    simp [NginxConfigGenerator.generate, hd, h2]
  | some inst =>
    have h2 : dictLookup id s2.configs = some inst := by rw [← h, hd]
    simp [NginxConfigGenerator.generate, hd, h2]

/-- Witness for C1: two distinct generator states that agree on the binding
of "a" (one also has "z" registered) append equal entries. -/
theorem claim_C1_deterministic_witness :
    ((NginxConfigGenerator.generate
        (NginxConfigGenerator.register_config GenState.empty "a"
          (.config .secureConfig)).1 "a" "j" "b" none).1.generated_configs.drop
        (NginxConfigGenerator.register_config GenState.empty "a"
          (.config .secureConfig)).1.generated_configs.length)
      = ((NginxConfigGenerator.generate
          (NginxConfigGenerator.register_config
            (NginxConfigGenerator.register_config GenState.empty "z"
              (.config .staticSiteConfig)).1 "a"
            (.config .secureConfig)).1 "a" "j" "b" none).1.generated_configs.drop
          (NginxConfigGenerator.register_config
            (NginxConfigGenerator.register_config GenState.empty "z"
              (.config .staticSiteConfig)).1 "a"
            (.config .secureConfig)).1.generated_configs.length)
    ∧ (NginxConfigGenerator.generate
        (NginxConfigGenerator.register_config GenState.empty "a"
          (.config .secureConfig)).1 "a" "j" "b" none).2
      = (NginxConfigGenerator.generate
          (NginxConfigGenerator.register_config
            (NginxConfigGenerator.register_config GenState.empty "z"
              (.config .staticSiteConfig)).1 "a"
            (.config .secureConfig)).1 "a" "j" "b" none).2 :=
  claim_C1_deterministic _ _ "a" "j" "b" none rfl

/-- C8: stored generated documents are immutable — after any sequence of
register, bulk-register, generate and save operations, every entry already
present in the store is still there, unchanged, at its position (later
operations only append new entries or read existing ones). -/
theorem claim_C8_store_immutable (ops : List Op) (s : GenState) (i : Nat)
    (h : i < s.generated_configs.length) :
    (runOps s ops).generated_configs[i]? = s.generated_configs[i]? := by
  induction ops generalizing s with
  | nil => rfl
  | cons op rest ih =>
    obtain ⟨h1, h2⟩ := applyOp_stable s op i h
    rw [runOps]
    exact (ih _ h2).trans h1

/-- Witness for C8: a store holding one document keeps it (at index 0)
across a register, a generate and a save. -/
theorem claim_C8_store_immutable_witness :
    (runOps ⟨[], [⟨"a", "t", "c", "j", "b", none⟩]⟩
        [.register "x" (.config .secureConfig), .generate "x" "j" "b" none,
          .save "d"]).generated_configs[0]?
      = (⟨[], [⟨"a", "t", "c", "j", "b", none⟩]⟩ : GenState).generated_configs[0]? :=
  claim_C8_store_immutable
    [.register "x" (.config .secureConfig), .generate "x" "j" "b" none, .save "d"]
    ⟨[], [⟨"a", "t", "c", "j", "b", none⟩]⟩ 0 (by simp)

/-- Decomposition of a generated document for a port-443 config: the text
is exactly a prefix, the certificate line, the key line, the interpolated
custom data and a suffix, in that order. -/
theorem generate_decomp (cls : ConfigClass) (config_id : String) (d : Option String)
    (h : (cls.new).default_port = 443) :
    (cls.new).generate config_id d
      = docPre cls.new config_id
          ++ (certLine config_id
          ++ (docMidKey
          ++ (keyLine config_id
          ++ (docMidData
          ++ (pyStr d
          ++ docPost cls.new config_id))))) := by
  cases cls
  case staticSiteConfig => exact absurd h (by decide)
  all_goals
    simp [ConfigInstance.generate, ConfigInstance.get_error_config,
      ConfigInstance.get_server_config, ConfigInstance.get_server_tokens,
      ConfigInstance.get_listen_directive, ConfigInstance.get_server_name,
      ConfigInstance.get_ssl_config, ConfigInstance.get_common_directives,
      ConfigInstance.get_location_blocks, ConfigClass.new, baseInit, joinParts,
      pyStr, docPre, docPost, docMidKey, docMidData, certLine, keyLine,
      String.append_assoc]
  all_goals try rfl

set_option maxRecDepth 100000 in
/-- C7 counterexample: TLS composition (`get_ssl_config`) with only a
domain supplied — the spec's input `domain = "example.com"`, no custom
data — produces a fragment with no protocol directive (no "TLSv1.2
TLSv1.3", no ssl_protocols), no cipher directive, and no HSTS header. -/
theorem claim_C7_counterexample :
    ¬ strContains "TLSv1.2 TLSv1.3"
        ((ConfigClass.secureConfig.new).get_ssl_config "example.com" none)
    ∧ ¬ strContains "ssl_protocols"
        ((ConfigClass.secureConfig.new).get_ssl_config "example.com" none)
    ∧ ¬ strContains "ssl_ciphers"
        ((ConfigClass.secureConfig.new).get_ssl_config "example.com" none)
    ∧ ¬ strContains "Strict-Transport-Security"
        ((ConfigClass.secureConfig.new).get_ssl_config "example.com" none) := by
  refine ⟨?_, ?_, ?_, ?_⟩ <;> (rw [strContains_iff]; decide)

/-- C7 (amended): TLS composition with only a domain supplied produces
exactly the two certificate lines with paths derived from the identifier
plus the rendered custom data ("None"); it emits no protocol, cipher,
server-preference or HSTS directives at all. -/
theorem claim_C7_ssl_fragment :
    (ConfigClass.secureConfig.new).get_ssl_config "example.com" none
      = "    ssl_certificate /etc/ssl/certs/example.com.crt;\n    ssl_certificate_key /etc/ssl/private/example.com.key;\n    \n    None" :=
  rfl

set_option maxRecDepth 100000 in
/-- C10: a generated document contains the ssl_certificate and
ssl_certificate_key lines (paths derived from the config identifier) and
the interpolated custom data exactly for the port-443 classes: every
document of a class whose `default_port` is 443 (SecureConfig, its
subclass, and DatabaseProxyConfig) contains them, classes with another
port get an empty ssl fragment, and the StaticSiteConfig document (port
80) for the repository's own identifier contains no ssl_certificate text
at all. -/
theorem claim_C10_ssl_iff_port443 :
    (∀ (cls : ConfigClass) (id : String) (d : Option String),
        (cls.new).default_port = 443 →
          strContains (certLine id) ((cls.new).generate id d)
          ∧ strContains (keyLine id) ((cls.new).generate id d)
          ∧ strContains (pyStr d) ((cls.new).generate id d))
    ∧ (∀ (cls : ConfigClass) (id : String) (d : Option String),
        (cls.new).default_port ≠ 443 → (cls.new).get_ssl_config id d = "")
    ∧ (ConfigClass.secureConfig.new).default_port = 443
    ∧ (ConfigClass.databaseProxyConfig.new).default_port = 443
    ∧ (ConfigClass.staticSiteConfig.new).default_port = 80
    ∧ ¬ strContains "ssl_certificate"
        ((ConfigClass.staticSiteConfig.new).generate "647929283_-1692967738" none) := by
  refine ⟨?_, ?_, rfl, rfl, rfl, ?_⟩
  · intro cls id d h
    refine ⟨⟨docPre cls.new id,
        docMidKey ++ (keyLine id ++ (docMidData ++ (pyStr d ++ docPost cls.new id))),
        generate_decomp cls id d h⟩, ?_, ?_⟩
    · refine ⟨docPre cls.new id ++ (certLine id ++ docMidKey),
        docMidData ++ (pyStr d ++ docPost cls.new id), ?_⟩
      rw [generate_decomp cls id d h]
      simp [String.append_assoc]
    · refine ⟨docPre cls.new id
          ++ (certLine id ++ (docMidKey ++ (keyLine id ++ docMidData))),
        docPost cls.new id, ?_⟩
      rw [generate_decomp cls id d h]
      simp [String.append_assoc]
  · intro cls id d h
    cases cls
    case staticSiteConfig => rfl
    all_goals exact absurd rfl h
  · rw [strContains_iff]
    decide

/-- Witness for C10 at a concrete port-443 input: the DatabaseProxyConfig
document for identifier "x" and custom data "D" contains both certificate
lines and the custom data. -/
theorem claim_C10_ssl_iff_port443_witness :
    strContains (certLine "x")
        ((ConfigClass.databaseProxyConfig.new).generate "x" (some "D"))
    ∧ strContains (keyLine "x")
        ((ConfigClass.databaseProxyConfig.new).generate "x" (some "D"))
    ∧ strContains (pyStr (some "D"))
        ((ConfigClass.databaseProxyConfig.new).generate "x" (some "D")) :=
  claim_C10_ssl_iff_port443.1 ConfigClass.databaseProxyConfig "x" (some "D") rfl

end Gen
